import Mathlib

/-!
Verification development for the `dcos app` CLI core
(`src/dcos/cli/app/main.py`):

* `_parse_int`                  → `DcosApp.pyParseInt`
* `_calculate_version`          → `DcosApp.calculateVersion`
* the `_update` merge loop      → `DcosApp.updateMergeLoop`
* `_start` instance handling    → `DcosApp.pyStart`
* `_stop`                       → `DcosApp.pyStop`

External collaborators (the Marathon client's `get_app_versions`,
`get_app`, `update_app`, and `util.validate_json`) are modelled as
function parameters; the Python `(value, error)` pair idiom is modelled
either literally as `Option α × Option String` (for `_parse_int`, whose
pair shape is itself under test) or as `Except`.
-/

namespace DcosApp

/-- Whitespace characters stripped by Python `int(str)` before parsing
(space, tab, newline, carriage return, vertical tab, form feed). -/
def isPySpace (c : Char) : Bool :=
  c = ' ' || c = '\t' || c = '\n' || c = '\r' || c = Char.ofNat 11 || c = Char.ofNat 12

/-- Strip leading and trailing whitespace, as Python `int(str)` does. -/
def stripEnds (cs : List Char) : List Char :=
  ((cs.dropWhile isPySpace).reverse.dropWhile isPySpace).reverse

/-- Numeric value of an ASCII decimal digit. -/
def digitVal (c : Char) : Nat := c.toNat - 48

/-- Value of a nonempty all-digit character sequence, `none` otherwise. -/
def decDigits (cs : List Char) : Option Nat :=
  if cs.isEmpty then none
  else if cs.all Char.isDigit then
    some (cs.foldl (fun a c => 10 * a + digitVal c) 0)
  else none

/-- Python `int(str)` on ASCII input: optional surrounding whitespace, an
optional single sign, then one or more decimal digits; anything else fails
(raises `ValueError` in Python, `none` here).  Python's arbitrary-precision
integers map to `Int` with no overflow. -/
def pyInt (s : String) : Option Int :=
  match stripEnds s.toList with
  | '-' :: rest => (decDigits rest).map (fun n => -(n : Int))
  | '+' :: rest => (decDigits rest).map (fun n => (n : Int))
  | cs => (decDigits cs).map (fun n => (n : Int))

/-- Message of the `errors.DefaultError` produced by `_parse_int`. -/
def parseIntErrMsg : String := "Error parsing string as int"

/-- The source's `_parse_int`: returns the Python pair
`(int(string), None)` on success and `(None, DefaultError(...))` when the
conversion raises; the bare `except:` means no exception escapes. -/
def pyParseInt (s : String) : Option Int × Option String :=
  match pyInt s with
  | some n => (some n, none)
  | none => (none, some parseIntErrMsg)

/-- Escape one character for Python `repr` of a string (backslash and the
chosen quote character; non-printable escapes are not needed here). -/
def pyEscapeChar (quote : Char) (c : Char) : String :=
  if c = '\\' then "\\\\"
  else if c = quote then "\\" ++ String.singleton quote
  else String.singleton c

/-- Python `repr` of a string, as produced by the `{!r}` format spec:
single quotes unless the string contains a single quote and no double
quote. -/
def pyReprStr (s : String) : String :=
  let q : Char :=
    if s.toList.contains (Char.ofNat 39) && !(s.toList.contains (Char.ofNat 34)) then
      Char.ofNat 34
    else Char.ofNat 39
  String.singleton q ++ String.join (s.toList.map (pyEscapeChar q)) ++ String.singleton q

/-- Errors produced by `_calculate_version`.  `lookup` wraps an error
object propagated unchanged from `client.get_app_versions`; `default` is
an `errors.DefaultError` built locally with the given message; `indexErr`
marks the Python `IndexError` that `versions[value]` would raise when out
of bounds (the source has no handler for it). -/
inductive CalcErr where
  | lookup (e : String)
  | default (msg : String)
  | indexErr
deriving DecidableEq

/-- Message of the insufficient-history `DefaultError` in
`_calculate_version`.  The source formats
`"Application {!r} only has {!r} version(s)."` with THREE arguments
`(app_id, len(versions), value)`; `str.format` silently drops the unused
third argument, so the requested offset does not appear in the message.
-/
def insufficientMsg (app_id : String) (available : Nat) : String :=
  "Application " ++ pyReprStr app_id ++ " only has " ++ toString available
    ++ " version(s)."

/-- Message of the non-negative-relative-version `DefaultError`
(`'Relative versions must be negative: {}'.format(version)`, plain `str`
formatting). -/
def negativeMsg (version : String) : String :=
  "Relative versions must be negative: " ++ version

/-- The source's `_calculate_version`.  `lookup` stands for
`client.get_app_versions app_id` (the Marathon client collaborator),
taking the requested count and returning either the version history
(most-recent-first) or an error.  The Python list indexing
`versions[value]` is modelled by `List.get?`, with the impossible
out-of-range case mapped to `CalcErr.indexErr`. -/
def calculateVersion (lookup : Int → Except String (List String))
    (app_id version : String) : Except CalcErr String :=
  match pyParseInt version with
  | (some value, none) =>
    if value < 0 then
      let value : Int := -1 * value
      match lookup (value + 1) with
      | .error e => .error (.lookup e)
      | .ok versions =>
        if (versions.length : Int) ≤ value then
          .error (.default (insufficientMsg app_id versions.length))
        else
          match versions.get? value.toNat with
          | some ver => .ok ver
          | none => .error .indexErr
    else
      .error (.default (negativeMsg version))
  | _ => .ok version

/-- Recognizer for the out-of-range marker of `calculateVersion`. -/
def isIndexErr : Except CalcErr String → Bool
  | .error .indexErr => true
  | _ => false

/-- Modelled from the spec: the type tag of a schema field
(`SchemaFieldType`, spec §3); the schema document itself
(`data/marathon-schema.json`) and the `dcos.api.jsonitem` module are not
under `src/`. -/
inductive SchemaFieldType where
  | string
  | number
  | integer
  | boolean
  | array
  | object
deriving DecidableEq

/-- Modelled from the spec: a decoded JSON value, the output of the
external `json.loads` collaborator used for `array`/`object` fields.
Float literals are kept as their raw text (no claim depends on float
arithmetic). -/
inductive Json where
  | null
  | bool (v : Bool)
  | num (raw : String)
  | str (v : String)
  | arr (xs : List Json)
  | obj (fields : List (String × Json))

/-- Top-level array test on decoded JSON. -/
def Json.isArr : Json → Bool
  | .arr _ => true
  | _ => false

/-- Top-level object test on decoded JSON. -/
def Json.isObj : Json → Bool
  | .obj _ => true
  | _ => false

/-- Modelled from the spec: a typed value produced by ValueParser
(spec §4.1). -/
inductive Value where
  | str (v : String)
  | int (n : Int)
  | num (raw : String)
  | bool (v : Bool)
  | json (j : Json)

/-- Modelled from the spec: the error kinds of PropertyItemParser and
ValueParser (spec §7). -/
inductive ParseError where
  | typeMismatch
  | schemaViolation
  | malformedProperty
  | unknownProperty (k : String)
deriving DecidableEq

/-- External parsing collaborators of ValueParser: Python's `float()`
(only success or failure matters here) and `json.loads`.  Both are
standard-library code outside this repository, so they are parameters of
the embedding. -/
structure Ext where
  isFloat : String → Bool
  parseJson : String → Option Json

/-- Modelled from the spec: the SchemaDocument accessor
`fieldType(key) -> Option<SchemaFieldType>` (spec §6), over an
association-list schema. -/
def lookupType (schema : List (String × SchemaFieldType)) (k : String) :
    Option SchemaFieldType :=
  (schema.find? (fun p => p.1 = k)).map (fun p => p.2)

/-- Modelled from the spec: ValueParser (spec §4.1).  `string` returns the
token unchanged; `integer` uses base-10 integer parsing; `number` accepts
float literals; `boolean` accepts exactly `true`/`false`; `array`/`object`
decode the token as JSON and check the top-level shape (the declared
SchemaDocument interface of spec §6 exposes no nested element schema, so
only the shape check is expressible). -/
def valueParse (ext : Ext) (tok : String) :
    SchemaFieldType → Except ParseError Value
  | .string => .ok (.str tok)
  | .integer =>
    match pyInt tok with
    | some n => .ok (.int n)
    | none => .error .typeMismatch
  | .number => if ext.isFloat tok then .ok (.num tok) else .error .typeMismatch
  | .boolean =>
    if tok = "true" then .ok (.bool true)
    else if tok = "false" then .ok (.bool false)
    else .error .typeMismatch
  | .array =>
    match ext.parseJson tok with
    | none => .error .typeMismatch
    | some j => if j.isArr then .ok (.json j) else .error .schemaViolation
  | .object =>
    match ext.parseJson tok with
    | none => .error .typeMismatch
    | some j => if j.isObj then .ok (.json j) else .error .schemaViolation

/-- Split a token at its first `=`, returning the key and value parts;
`none` when no `=` is present. -/
def splitFirstEq : List Char → Option (List Char × List Char)
  | [] => none
  | c :: rest =>
    if c = '=' then some ([], rest)
    else (splitFirstEq rest).map (fun p => (c :: p.1, p.2))

/-- Modelled from the spec: `jsonitem.parse_json_item` / PropertyItemParser
(spec §4.2): split on the first `=`, look up the key's declared type,
delegate to ValueParser. -/
def parse_json_item (ext : Ext) (schema : List (String × SchemaFieldType))
    (item : String) : Except ParseError (String × Value) :=
  match splitFirstEq item.toList with
  | none => .error .malformedProperty
  | some (kcs, vcs) =>
    let k : String := String.mk kcs
    match lookupType schema k with
    | none => .error (.unknownProperty k)
    | some t => (valueParse ext (String.mk vcs) t).map (fun v => (k, v))

/-- Boolean success test for `parse_json_item` on one item. -/
def parseOk (ext : Ext) (schema : List (String × SchemaFieldType))
    (item : String) : Bool :=
  match parse_json_item ext schema item with
  | .ok _ => true
  | .error _ => false

/-- Key of an item as parsed by `parse_json_item` (empty string when the
parse fails; only used under a parse-success hypothesis). -/
def pKey (ext : Ext) (schema : List (String × SchemaFieldType))
    (item : String) : String :=
  match parse_json_item ext schema item with
  | .ok kv => kv.1
  | .error _ => ""

/-- Value of an item as parsed by `parse_json_item` (dummy when the parse
fails; only used under a parse-success hypothesis). -/
def pVal (ext : Ext) (schema : List (String × SchemaFieldType))
    (item : String) : Value :=
  match parse_json_item ext schema item with
  | .ok kv => kv.2
  | .error _ => .str ""

/-- Errors of the `_update` merge loop: a propagated item parse error, or
the `'Key {!r} was specified more than once'` duplicate-key error. -/
inductive MergeErr where
  | parse (e : ParseError)
  | dup (k : String)
deriving DecidableEq

/-- The `for json_item in json_items` loop of `_update`: parse each item,
abort on a parse error, abort with `MergeErr.dup` when the key is already
present in the descriptor, otherwise insert.  The Python dict `app_json`
is the association list `acc` (keys unique by construction, insertion
order preserved). -/
def mergeItems (ext : Ext) (schema : List (String × SchemaFieldType))
    (acc : List (String × Value)) :
    List String → Except MergeErr (List (String × Value))
  | [] => .ok acc
  | item :: rest =>
    match parse_json_item ext schema item with
    | .error e => .error (.parse e)
    | .ok (k, v) =>
      if acc.any (fun p => p.1 = k) then .error (.dup k)
      else mergeItems ext schema (acc ++ [(k, v)]) rest

/-- The descriptor-building part of `_update`: start from
`app_json = {'id': app_id}` and run the merge loop over the supplied
items. -/
def updateMergeLoop (ext : Ext) (schema : List (String × SchemaFieldType))
    (app_id : String) (items : List String) :
    Except MergeErr (List (String × Value)) :=
  mergeItems ext schema [("id", .str app_id)] items

/-- The application descriptor fetched by `client.get_app`, restricted to
the only field `_start`/`_stop` read. -/
structure AppDesc where
  instances : Int

/-- The `{'id': ..., 'instances': ...}` document `_start` builds and
submits. -/
structure StartDesc where
  id : String
  instances : Int

/-- The source's `_stop`.  `getApp` stands for `client.get_app app_id` and
`updateApp` for `client.update_app app_id {'instances': 0} force`.  The
return type is `Option Nat` because the Python function has no `return`
statement on the successful-update path: it falls off the end and returns
`None`, not the documented `int` process status. -/
def pyStop (getApp : Except String AppDesc)
    (updateApp : Except String String) : Option Nat :=
  match getApp with
  | .error _ => some 1
  | .ok desc =>
    if desc.instances ≤ 0 then some 1
    else
      match updateApp with
      | .error _ => some 1
      | .ok _ => none

/-- The tail of `_start` after the instance count is settled: validate the
built document (`util.validate_json`, a collaborator parameter `validate`
returning `some err` on failure) and submit it (`client.update_app`,
parameter `updateApp`). -/
def finishStart (validate : StartDesc → Option String)
    (updateApp : StartDesc → Except String String) (d : StartDesc) : Nat :=
  match validate d with
  | some _ => 1
  | none =>
    match updateApp d with
    | .error _ => 1
    | .ok _ => 0

/-- The source's `_start`: fail if the app cannot be fetched or is already
started; default the instance count to 1 when absent, otherwise parse it
with `_parse_int` and reject non-positive values; then validate and
submit. -/
def pyStart (getApp : Except String AppDesc)
    (validate : StartDesc → Option String)
    (updateApp : StartDesc → Except String String)
    (app_id : String) (instances : Option String) : Nat :=
  match getApp with
  | .error _ => 1
  | .ok desc =>
    if desc.instances > 0 then 1
    else
      match instances with
      | none => finishStart validate updateApp ⟨app_id, 1⟩
      | some s =>
        match pyParseInt s with
        | (some n, none) =>
          if n ≤ 0 then 1 else finishStart validate updateApp ⟨app_id, n⟩
        | _ => 1

/-- External-collaborator instance with no float and no JSON support,
usable for items of `string`/`integer`/`boolean` type, which never consult
it. -/
def ext0 : Ext := ⟨fun _ => false, fun _ => none⟩

/-- Small concrete schema for witnesses: `id` and `cmd` are strings,
`cpus` an integer. -/
def schemaA : List (String × SchemaFieldType) :=
  [("id", .string), ("cpus", .integer), ("cmd", .string)]

/-- History lookup answering `["v3", "v2", "v1"]` to a request for two
entries. -/
def lkC1 : Int → Except String (List String) :=
  fun k => if k = 2 then .ok ["v3", "v2", "v1"] else .ok []

/-- History lookup answering only three entries to a request for six. -/
def lkC3 : Int → Except String (List String) :=
  fun k => if k = 6 then .ok ["a", "b", "c"] else .ok []

/-- History lookup answering an empty history to every request. -/
def lk0 : Int → Except String (List String) := fun _ => .ok []

/-- Validator collaborator that accepts every document. -/
def v0 : StartDesc → Option String := fun _ => none

/-- Update collaborator that always succeeds with one deployment id. -/
def u0 : StartDesc → Except String String := fun _ => .ok "d0"

/-- Running the merge loop over a concatenation first runs it over the
left part and continues from its accumulator. -/
lemma mergeItems_append (ext : Ext) (schema : List (String × SchemaFieldType))
    (xs ys : List String) :
    ∀ acc, mergeItems ext schema acc (xs ++ ys) =
      (mergeItems ext schema acc xs).bind
        (fun acc2 => mergeItems ext schema acc2 ys) := by
  induction xs with
  | nil =>
    intro acc
    simp [mergeItems, Except.bind]
  | cons item rest ih =>
    intro acc
    simp only [List.cons_append, mergeItems]
    cases hp : parse_json_item ext schema item with
    | error e => simp [Except.bind]
    | ok kv =>
      obtain ⟨k, v⟩ := kv
      by_cases h : acc.any (fun p => p.1 = k)
      · simp [h, Except.bind]
      · simp [h, ih]

/-- When every item parses and the parsed keys are distinct and disjoint
from the accumulator, the merge loop succeeds and appends exactly the
parsed pairs. -/
lemma mergeItems_ok (ext : Ext) (schema : List (String × SchemaFieldType)) :
    ∀ (items : List String) (acc : List (String × Value)),
    (∀ it ∈ items, parseOk ext schema it = true) →
    (items.map (pKey ext schema)).Nodup →
    (∀ it ∈ items, ∀ p ∈ acc, p.1 ≠ pKey ext schema it) →
    mergeItems ext schema acc items =
      .ok (acc ++ items.map (fun it => (pKey ext schema it, pVal ext schema it))) := by
  intro items
  induction items with
  | nil =>
    intro acc _ _ _
    simp [mergeItems]
  | cons item rest ih =>
    intro acc hok hnd hdisj
    have hhead := hok item (List.mem_cons_self item rest)
    unfold parseOk at hhead
    rcases hp : parse_json_item ext schema item with e | ⟨k, v⟩
    · rw [hp] at hhead
      exact absurd hhead (by simp)
    · have hk : pKey ext schema item = k := by simp [pKey, hp]
      have hv : pVal ext schema item = v := by simp [pVal, hp]
      have hany : acc.any (fun p => p.1 = k) = false := by
        rw [List.any_eq_false]
        intro p hpmem
        have := hdisj item (List.mem_cons_self item rest) p hpmem
        rw [hk] at this
        simpa using this
      simp only [mergeItems, hp, hany, Bool.false_eq_true, if_false]
      have hknotin : k ∉ rest.map (pKey ext schema) := by
        rw [← hk]
        exact (List.nodup_cons.mp (by simpa using hnd)).1
      rw [ih (acc ++ [(k, v)])
        (fun it hit => hok it (List.mem_cons_of_mem _ hit))
        ((List.nodup_cons.mp (by simpa using hnd)).2)
        ?_]
      · simp [hk, hv]
      · intro it hit p hpmem
        rcases List.mem_append.mp hpmem with hacc | hsing
        · exact hdisj it (List.mem_cons_of_mem _ hit) p hacc
        · have hpk : p = (k, v) := by simpa using hsing
          rw [hpk]
          intro hcontra
          have hcontra2 : k = pKey ext schema it := hcontra
          rw [hcontra2] at hknotin
          exact hknotin (List.mem_map_of_mem (pKey ext schema) hit)

/-- The seed descriptor `{'id': app_id}` is key-disjoint from items whose
parsed keys avoid `id`. -/
lemma initAcc_disjoint (ext : Ext) (schema : List (String × SchemaFieldType))
    (app_id : String) (items : List String)
    (hid : ∀ it ∈ items, pKey ext schema it ≠ "id") :
    ∀ it ∈ items, ∀ p ∈ [(("id" : String), Value.str app_id)],
      p.1 ≠ pKey ext schema it := by
  intro it hit p hp
  have hpid : p = ("id", Value.str app_id) := by simpa using hp
  rw [hpid]
  exact fun hcontra => hid it hit hcontra.symm

/-- C1: for every version token parsing as a negative integer `v` (so
`n = -v ≥ 1`), `_calculate_version` consults the history lookup only at
count `n + 1`, and when the returned history is longer than `n` it
returns the element at zero-based index `n`. -/
theorem c1_negative_resolves (app version : String) (v : Int)
    (hp : pyInt version = some v) (hv : v < 0) :
    (∀ l₁ l₂ : Int → Except String (List String),
      l₁ (-1 * v + 1) = l₂ (-1 * v + 1) →
      calculateVersion l₁ app version = calculateVersion l₂ app version) ∧
    (∀ (l : Int → Except String (List String)) (h : List String)
      (_ : l (-1 * v + 1) = .ok h) (hlen : (-1 * v).toNat < h.length),
      calculateVersion l app version = .ok (h.get ⟨(-1 * v).toNat, hlen⟩)) := by
  have hpp : pyParseInt version = (some v, none) := by simp [pyParseInt, hp]
  constructor
  · intro l₁ l₂ hl
    simp only [calculateVersion, hpp, if_pos hv]
    rw [hl]
  · intro l h hl hlen
    simp only [calculateVersion, hpp, if_pos hv, hl]
    have hnotle : ¬ ((h.length : Int) ≤ -1 * v) := by omega
    rw [if_neg hnotle, List.get?_eq_get hlen]

/-- C1 witness: resolving `"-1"` against a lookup whose two-entry request
answers `["v3", "v2", "v1"]` yields `"v2"`. -/
theorem c1_witness : calculateVersion lkC1 "a" "-1" = .ok "v2" := by
  have h := (c1_negative_resolves "a" "-1" (-1) rfl (by norm_num)).2
    lkC1 ["v3", "v2", "v1"] rfl (by norm_num)
  exact h

/-- C3: at the failing input (token `"-5"`, application `"foo"`, lookup
returning only three entries for a request of six) `_calculate_version`
does fail and the message states how many versions exist, but the error
message never mentions the requested offset 5: the source passes the
offset as a third argument to `str.format` whose template has only two
placeholders, so it is silently dropped. -/
theorem c3_message_omits_requested :
    calculateVersion lkC3 "foo" "-5" =
      .error (.default (insufficientMsg "foo" 3)) ∧
    (insufficientMsg "foo" 3).toList.contains '3' = true ∧
    (insufficientMsg "foo" 3).toList.contains '5' = false :=
  ⟨rfl, rfl, rfl⟩

/-- C4: `_stop` does not return process status 0 after a successful stop
update: the Python function has no `return` statement on that path and
falls off the end, returning `None` (modelled as `none`) instead of the
documented `int` 0. -/
theorem c4_stop_returns_none :
    pyStop (.ok ⟨3⟩) (.ok "d0") = none := rfl

/-- C5: every version token parsing as a non-negative integer makes
`_calculate_version` fail with the invalid-relative-version error; the
result is the same for every lookup function, so the history lookup is
never consulted. -/
theorem c5_nonnegative_rejected (lookup : Int → Except String (List String))
    (app version : String) (v : Int)
    (hp : pyInt version = some v) (hv : 0 ≤ v) :
    calculateVersion lookup app version = .error (.default (negativeMsg version)) := by
  have hpp : pyParseInt version = (some v, none) := by simp [pyParseInt, hp]
  simp only [calculateVersion, hpp]
  rw [if_neg (by omega)]

/-- C5 witness: resolving `"0"` fails with the must-be-negative error. -/
theorem c5_witness :
    calculateVersion lk0 "a" "0" = .error (.default (negativeMsg "0")) :=
  c5_nonnegative_rejected lk0 "a" "0" 0 rfl (le_refl 0)

/-- C6: every version token that does not parse as an integer is returned
unchanged as the resolved version; the result is the same for every
lookup function, so the history lookup is never consulted. -/
theorem c6_absolute_passthrough (lookup : Int → Except String (List String))
    (app version : String) (hp : pyInt version = none) :
    calculateVersion lookup app version = .ok version := by
  have hpp : pyParseInt version = (none, some parseIntErrMsg) := by
    simp [pyParseInt, hp]
  simp [calculateVersion, hpp]

/-- C6 witness: an ISO8601 date-time token is returned unchanged. -/
theorem c6_witness :
    calculateVersion lk0 "a" "2024-01-01T00:00:00Z" = .ok "2024-01-01T00:00:00Z" :=
  c6_absolute_passthrough lk0 "a" "2024-01-01T00:00:00Z" rfl

/-- C8: for every input string, `_parse_int` returns either an integer
with no error or no value with the parse error — one of exactly these two
shapes, never an escaping exception (the bare `except:` handler). -/
theorem c8_parse_int_total (s : String) :
    (∃ n : Int, pyParseInt s = (some n, none)) ∨
      pyParseInt s = (none, some parseIntErrMsg) := by
  unfold pyParseInt
  cases pyInt s with
  | some n => exact Or.inl ⟨n, rfl⟩
  | none => exact Or.inr rfl

/-- C9: the `versions[value]` indexing in `_calculate_version` is guarded
by the length check, so the out-of-range (`IndexError`) branch is
unreachable for every lookup result and every token. -/
theorem c9_index_in_bounds (lookup : Int → Except String (List String))
    (app version : String) :
    isIndexErr (calculateVersion lookup app version) = false := by
  unfold calculateVersion
  rcases hpp : pyParseInt version with ⟨a, b⟩
  match a, b with
  | none, none => rfl
  | none, some e => rfl
  | some v, some e => rfl
  | some v, none =>
    simp only []
    by_cases hv : v < 0
    · rw [if_pos hv]
      cases hl : lookup (-1 * v + 1) with
      | error e => rfl
      | ok versions =>
        dsimp only
        by_cases hlen : (versions.length : Int) ≤ -1 * v
        · rw [if_pos hlen]; rfl
        · rw [if_neg hlen]
          cases hget : versions.get? (-1 * v).toNat with
          | some ver => rfl
          | none =>
            exfalso
            have h1 := List.get?_eq_none.mp hget
            omega
    · rw [if_neg hv]; rfl

/-- C2 counterexample: the single item `"id=x"` has pairwise-distinct keys
all declared in the schema, yet the build fails, because the merge loop
seeds the descriptor with `id` before processing the items. -/
theorem c2_counterexample :
    (["id=x"].map (pKey ext0 schemaA)).Nodup ∧
    lookupType schemaA "id" = some .string ∧
    updateMergeLoop ext0 schemaA "/app" ["id=x"] = .error (.dup "id") :=
  ⟨List.nodup_singleton _, rfl, rfl⟩

/-- C2 (amended): for every list of items that each parse successfully
(key declared in the schema and value well formed for its type), whose
parsed keys are pairwise distinct and none of which is `id`, the merge
loop succeeds and the resulting descriptor holds `id` followed by exactly
the supplied key/value pairs. -/
theorem c2_amended_build_keys (ext : Ext)
    (schema : List (String × SchemaFieldType)) (app_id : String)
    (items : List String)
    (hok : ∀ it ∈ items, parseOk ext schema it = true)
    (hnd : (items.map (pKey ext schema)).Nodup)
    (hid : ∀ it ∈ items, pKey ext schema it ≠ "id") :
    updateMergeLoop ext schema app_id items =
      .ok (("id", .str app_id) ::
        items.map (fun it => (pKey ext schema it, pVal ext schema it))) := by
  unfold updateMergeLoop
  rw [mergeItems_ok ext schema items [("id", .str app_id)] hok hnd
    (initAcc_disjoint ext schema app_id items hid)]
  simp

/-- C2 witness: two well-formed items with distinct declared keys produce
the descriptor `id`, `cpus`, `cmd`. -/
theorem c2_witness :
    updateMergeLoop ext0 schemaA "/a" ["cpus=2", "cmd=echo hi"] =
      .ok (("id", .str "/a") ::
        ["cpus=2", "cmd=echo hi"].map
          (fun it => (pKey ext0 schemaA it, pVal ext0 schemaA it))) :=
  c2_amended_build_keys ext0 schemaA "/a" ["cpus=2", "cmd=echo hi"]
    (by decide) (by decide) (by decide)

/-- C7: when the items are a clean prefix (each parsing, keys distinct and
not `id`) followed by an item whose key is already in the descriptor, the
build fails with the duplicate-key error for that first duplicate, the
remaining items are never examined, and no descriptor is returned. -/
theorem c7_duplicate_fails_first (ext : Ext)
    (schema : List (String × SchemaFieldType)) (app_id : String)
    (pre : List String) (dupItem : String) (post : List String)
    (k : String) (v : Value)
    (hok : ∀ it ∈ pre, parseOk ext schema it = true)
    (hnd : (pre.map (pKey ext schema)).Nodup)
    (hid : ∀ it ∈ pre, pKey ext schema it ≠ "id")
    (hdup : parse_json_item ext schema dupItem = .ok (k, v))
    (hk : k ∈ "id" :: pre.map (pKey ext schema)) :
    updateMergeLoop ext schema app_id (pre ++ dupItem :: post) =
      .error (.dup k) := by
  unfold updateMergeLoop
  rw [mergeItems_append, mergeItems_ok ext schema pre [("id", .str app_id)] hok hnd
    (initAcc_disjoint ext schema app_id pre hid)]
  have hany :
      (([(("id" : String), Value.str app_id)] ++
        pre.map (fun it => (pKey ext schema it, pVal ext schema it))).any
          (fun p => p.1 = k)) = true := by
    rw [List.any_eq_true]
    rcases List.mem_cons.mp hk with hkid | hkpre
    · exact ⟨("id", Value.str app_id), by simp [hkid]⟩
    · rcases List.mem_map.mp hkpre with ⟨it, hit, hkeq⟩
      refine ⟨(pKey ext schema it, pVal ext schema it),
        List.mem_append_right _ (List.mem_map_of_mem _ hit), ?_⟩
      simpa using hkeq
  simp only [Except.bind, mergeItems, hdup, hany, if_true]

/-- C7 witness: `["cpus=2", "cpus=3", "!!!"]` fails with the duplicate-key
error on `cpus`; the malformed trailing item is never reached. -/
theorem c7_witness :
    updateMergeLoop ext0 schemaA "/a" ["cpus=2", "cpus=3", "!!!"] =
      .error (.dup "cpus") :=
  c7_duplicate_fails_first ext0 schemaA "/a" ["cpus=2"] "cpus=3" ["!!!"]
    "cpus" (.int 3) (by decide) (by decide) (by decide) rfl (by decide)

/-- C10: in `_start`, omitting the instance count behaves exactly like
supplying `"1"` (the descriptor's `instances` field defaults to 1), and a
supplied count that fails integer parsing or is not strictly positive
yields process status 1 for every validator and every update collaborator,
so no update request is submitted. -/
theorem c10_start_instances (getApp : Except String AppDesc)
    (validate : StartDesc → Option String)
    (updateApp : StartDesc → Except String String) (app_id : String) :
    (pyStart getApp validate updateApp app_id none =
      pyStart getApp validate updateApp app_id (some "1")) ∧
    (∀ s : String,
      (pyInt s = none ∨ ∃ n, pyInt s = some n ∧ n ≤ 0) →
      pyStart getApp validate updateApp app_id (some s) = 1) := by
  constructor
  · cases getApp with
    | error e => rfl
    | ok desc =>
      unfold pyStart
      by_cases h : desc.instances > 0
      · simp [h]
      · simp [h]
        rfl
  · intro s hs
    cases getApp with
    | error e => rfl
    | ok desc =>
      unfold pyStart
      by_cases h : desc.instances > 0
      · simp [h]
      · rcases hs with hnone | ⟨n, hn, hle⟩
        · simp [h, pyParseInt, hnone]
        · simp [h, pyParseInt, hn, hle]

/-- C10 witness: with a stopped application, omitting the count equals
supplying `"1"`, and the non-positive count `"0"` yields status 1. -/
theorem c10_witness :
    pyStart (.ok ⟨0⟩) v0 u0 "a" none = pyStart (.ok ⟨0⟩) v0 u0 "a" (some "1") ∧
    pyStart (.ok ⟨0⟩) v0 u0 "a" (some "0") = 1 :=
  ⟨(c10_start_instances (.ok ⟨0⟩) v0 u0 "a").1,
   (c10_start_instances (.ok ⟨0⟩) v0 u0 "a").2 "0"
     (Or.inr ⟨0, rfl, le_refl 0⟩)⟩

end DcosApp
